import Mathlib

/-!
Verification of the Command Registry & Help Subsystem of the
ocp-sustaining-bot repository, as a shallow embedding in Lean 4.

The embedding follows `sdk/tools/help_system.py` and `slack_main.py`.
Python values that flow through help metadata (static values and
zero-argument producers that may raise) are modelled by `PyVal` and
`DynVal`; the process-wide `COMMAND_REGISTRY` dict is modelled as an
insertion-ordered association list with Python-dict update semantics;
raising producers are modelled as `Unit → Except String PyVal`.

All definitions are written with structural recursion over `List Char`
so that every concrete instance evaluates inside the kernel.
-/

namespace OcpBot

/-! ## Python string primitives

Evaluable models of the Python `str` operations used by the bot:
`str.strip`, `str.split(" ")`, `str.lower`, `str.replace`, the `in`
substring test and slicing (`[:n]`).  They operate on the character
list underlying a `String`.
-/

/-- Model of Python `str.strip()`: remove leading and trailing whitespace. -/
def pyStrip (s : String) : String :=
  String.mk (((s.data.dropWhile Char.isWhitespace).reverse.dropWhile Char.isWhitespace).reverse)

/-- Helper of `pySplitOnSpace`: accumulates the current field (reversed). -/
def pySplitOnSpaceAux : List Char → List Char → List String
  | [], cur => [String.mk cur.reverse]
  | c :: rest, cur =>
    if c = ' ' then String.mk cur.reverse :: pySplitOnSpaceAux rest []
    else pySplitOnSpaceAux rest (c :: cur)

/-- Model of Python `str.split(" ")`: split on every single space,
keeping empty fields (which the caller filters out). -/
def pySplitOnSpace (s : String) : List String :=
  pySplitOnSpaceAux s.data []

/-- Model of Python `str.lower()` (ASCII-adequate for command names). -/
def pyToLower (s : String) : String :=
  String.mk (s.data.map Char.toLower)

/-- Model of Python slicing `s[:n]`. -/
def pyTake (s : String) (n : Nat) : String :=
  String.mk (s.data.take n)

/-- Fuel-indexed worker for `pyReplace`; the fuel starts at the length of
the subject string, which bounds the number of steps because the pattern
is non-empty. -/
def pyReplaceAux (pat sub : List Char) : Nat → List Char → List Char
  | _, [] => []
  | 0, cs => cs
  | Nat.succ n, c :: cs =>
    if pat.isPrefixOf (c :: cs) then
      sub ++ pyReplaceAux pat sub n ((c :: cs).drop pat.length)
    else
      c :: pyReplaceAux pat sub n cs

/-- Model of Python `str.replace(pat, sub)` for a non-empty pattern:
replace every non-overlapping occurrence, left to right. -/
def pyReplace (s pat sub : String) : String :=
  if pat.data = [] then s
  else String.mk (pyReplaceAux pat.data sub.data s.data.length s.data)

/-- Worker for the substring test: does `pat` occur in `cs`? -/
def listContainsSub : List Char → List Char → Bool
  | cs, pat =>
    match cs with
    | [] => pat.isPrefixOf ([] : List Char)
    | _ :: rest => pat.isPrefixOf cs || listContainsSub rest pat

/-- Model of Python `sub in s` on strings. -/
def pyInStr (sub s : String) : Bool :=
  listContainsSub s.data sub.data

/-- Lexicographic code-point comparison, as Python string `<`. -/
def charListLt : List Char → List Char → Bool
  | [], [] => false
  | [], _ :: _ => true
  | _ :: _, [] => false
  | a :: as, b :: bs =>
    if a < b then true
    else if b < a then false
    else charListLt as bs

/-- Python string `<` on the underlying character lists. -/
def pyStrLt (a b : String) : Bool :=
  charListLt a.data b.data

/-! ## Python values and dynamic values

`PyVal` models the Python values that appear as resolved help metadata:
strings and sequences of strings (the `choices` lists).  `DynVal`
models a value that "might be static or callable" (`help_system.py`,
`get_dynamic_value`): a producer is a zero-argument callable that either
returns a value or raises, modelled with `Except`.
-/

/-- A Python value flowing through help metadata. -/
inductive PyVal where
  | str : String → PyVal
  | list : List String → PyVal
deriving DecidableEq

/-- Python `str()` of a `PyVal`, as used by f-string interpolation of a
resolved default value. -/
def pyStrOfVal : PyVal → String
  | PyVal.str s => s
  | PyVal.list xs =>
    "[" ++ String.intercalate ", " (xs.map (fun x => "\x27" ++ x ++ "\x27")) ++ "]"

/-- A static value or a zero-argument producer that may raise. -/
inductive DynVal where
  | static : PyVal → DynVal
  | producer : (Unit → Except String PyVal) → DynVal

/-- `help_system.get_dynamic_value`: a callable is invoked and its result
returned; if invocation raises, the sentinel string
`"<error getting value>"` is returned instead of propagating; a
non-callable is returned unchanged. -/
def get_dynamic_value : DynVal → PyVal
  | DynVal.static v => v
  | DynVal.producer f =>
    match f () with
    | Except.ok v => v
    | Except.error _ => PyVal.str "<error getting value>"

/-! ## Command metadata and the registry

`command_meta` stores the metadata on the decorated function as
attributes `_command_description`, `_command_arguments`,
`_command_examples`, `_command_aliases`; `CommandFunc` packages the
function together with those attributes.  The `fid` field models the
identity of the underlying Python function object.  `COMMAND_REGISTRY`
(a Python dict, insertion ordered) is modelled as an association list
with dict update semantics.
-/

/-- One argument's info dict: keys `required`, `description`, `choices`,
`default` (each optional except that `required` defaults to `False`). -/
structure ArgInfo where
  required : Bool
  description : Option String
  choices : Option DynVal
  default : Option DynVal

/-- A command handler function with its attached help metadata. -/
structure CommandFunc where
  description : String
  arguments : List (String × ArgInfo)
  examples : List String
  aliases : List String
  fid : Nat

/-- Constructs the decorated function with attributes attached. -/
def mk_command_func (description : String) (arguments : List (String × ArgInfo))
    (examples : List String) (aliases : List String) (fid : Nat) : CommandFunc :=
  ⟨description, arguments, examples, aliases, fid⟩

/-- The global `COMMAND_REGISTRY` dict, as an insertion-ordered
association list. -/
abbrev Registry := List (String × CommandFunc)

/-- Python dict lookup `d[k]` (as an `Option`). -/
def dictGet? {α : Type} : List (String × α) → String → Option α
  | [], _ => none
  | p :: rest, k => if p.1 == k then some p.2 else dictGet? rest k

/-- Python dict assignment `d[k] = v`: update in place if the key is
present (keeping its position), otherwise append. -/
def dictSet {α : Type} : List (String × α) → String → α → List (String × α)
  | [], k, v => [(k, v)]
  | p :: rest, k, v =>
    if p.1 == k then (k, v) :: rest else p :: dictSet rest k v

/-- `help_system.command_meta`: attach metadata to the function and
register it — under its canonical `name` unless the name is `"help"`,
and additionally under every alias. -/
def command_meta (name : String) (description : String)
    (arguments : List (String × ArgInfo)) (examples : List String)
    (aliases : List String) (fid : Nat) (reg : Registry) : Registry :=
  let func := mk_command_func description arguments examples aliases fid
  let reg := if name != "help" then dictSet reg name func else reg
  aliases.foldl (fun r a => dictSet r a func) reg

/-- The `meta` dictionary passed to `register_command`; every key is
optional, mirroring `meta.get(key, fallback)`. -/
structure MetaDict where
  description : Option String
  arguments : Option (List (String × ArgInfo))
  examples : Option (List String)
  aliases : Option (List String)

/-- The handler produced by `register_command`: attributes are set from
`meta.get(...)` with the source's fallbacks. -/
def handler_with_meta (fid : Nat) (md : MetaDict) : CommandFunc :=
  mk_command_func (md.description.getD "") (md.arguments.getD [])
    (md.examples.getD []) (md.aliases.getD []) fid

/-- `help_system.register_command`: manual registration path.  Inserts
the handler under `name` unconditionally, then under every alias. -/
def register_command (name : String) (fid : Nat) (md : MetaDict)
    (reg : Registry) : Registry :=
  let handler := handler_with_meta fid md
  let reg := dictSet reg name handler
  (md.aliases.getD []).foldl (fun r a => dictSet r a handler) reg

/-! ## Help formatter (`format_command_help`)

The detailed rendering of one argument line is split into the prefix,
the options field and the default field; their concatenation is the
line the source builds imperatively into `arg_line`.
-/

/-- The beginning of one argument line: backquoted flag name, optional
`(required)` marker, and the description (with the source's fallback). -/
def arg_line_prefix (arg_name : String) (arg_info : ArgInfo) : String :=
  let l := "  `--" ++ arg_name ++ "`"
  let l := if arg_info.required then l ++ " *(required)*" else l
  l ++ " - " ++ (arg_info.description.getD "No description")

/-- The options field of an argument line.  The resolved choices value
is rendered only when it is a truthy list; more than 10 entries render
as the first 10 followed by the `, ...` marker.  A non-list resolution
(in particular the resolver's sentinel string) renders nothing. -/
def options_part (arg_info : ArgInfo) : String :=
  match arg_info.choices with
  | none => ""
  | some chv =>
    match get_dynamic_value chv with
    | PyVal.str _ => ""
    | PyVal.list cs =>
      if cs = [] then ""
      else if cs.length > 10 then
        " (Options: " ++ String.intercalate ", " (cs.take 10) ++ ", ...)"
      else
        " (Options: " ++ String.intercalate ", " cs ++ ")"

/-- The default field of an argument line: the resolved default value,
interpolated via `str()`. -/
def default_part (arg_info : ArgInfo) : String :=
  match arg_info.default with
  | none => ""
  | some dv => " (Default: " ++ pyStrOfVal (get_dynamic_value dv) ++ ")"

/-- One complete argument line of detailed help. -/
def render_arg_line (arg_name : String) (arg_info : ArgInfo) : String :=
  arg_line_prefix arg_name arg_info ++ options_part arg_info ++ default_part arg_info

/-- The parts of the detailed `Usage:` line: `--name=<name>` when
required, bracketed otherwise. -/
def usage_parts (command_name : String)
    (arguments : List (String × ArgInfo)) : List String :=
  command_name :: arguments.map (fun p =>
    if p.2.required then "--" ++ p.1 ++ "=<" ++ p.1 ++ ">"
    else "[--" ++ p.1 ++ "=<" ++ p.1 ++ ">]")

/-- `help_system.format_command_help`: not-found message for unknown
names; one-line summary when not detailed; otherwise the multi-section
detailed block, joined with newlines and stripped. -/
def format_command_help (reg : Registry) (command_name : String)
    (detailed : Bool) : String :=
  match dictGet? reg command_name with
  | none => "Command \x27" ++ command_name ++ "\x27 not found."
  | some func =>
    if !detailed then
      "`" ++ command_name ++ "` - " ++ func.description
    else
      let arguments := func.arguments
      let help_text : List String :=
        ["*" ++ command_name ++ "*", "_" ++ func.description ++ "_", ""]
      let help_text := if arguments.isEmpty then help_text else
        help_text ++
          ["*Usage:* `" ++ String.intercalate " " (usage_parts command_name arguments) ++ "`", ""]
      let help_text := if arguments.isEmpty then help_text else
        help_text ++ ["*Arguments:*"] ++
          arguments.map (fun p => render_arg_line p.1 p.2) ++ [""]
      let help_text := if func.examples.isEmpty then help_text else
        help_text ++ ["*Examples:*"] ++
          func.examples.map (fun ex => "  `" ++ ex ++ "`") ++ [""]
      let help_text := if func.aliases.isEmpty then help_text else
        help_text ++ ["*Aliases:* " ++ String.intercalate ", " func.aliases, ""]
      pyStrip (String.intercalate "\n" help_text)

/-! ## General help list and its cache -/

/-- The `unique_commands` loop of `_build_general_help_text`, verbatim:
iterate the registry items and add each whose key is not already a key
of the accumulator. -/
def unique_commands_of (reg : Registry) : Registry :=
  reg.foldl (fun acc p => if acc.any (fun q => q.1 == p.1) then acc else acc ++ [p]) []

/-- Insert one entry into a list sorted by dispatch key. -/
def insertByKey (p : String × CommandFunc) :
    List (String × CommandFunc) → List (String × CommandFunc)
  | [] => [p]
  | q :: rest => if pyStrLt p.1 q.1 then p :: q :: rest else q :: insertByKey p rest

/-- `sorted(unique_commands.items())`: sort the entries by key (keys are
unique, so the tuple comparison never reaches the second component). -/
def sortByKey (l : List (String × CommandFunc)) : List (String × CommandFunc) :=
  l.foldr insertByKey []

/-- One line of the general command list: the compact usage string
(`<name>` for required arguments, `[name]` otherwise) and the
description. -/
def general_usage_line (cmd_name : String) (func : CommandFunc) : String :=
  "`" ++
    String.intercalate " " (cmd_name :: func.arguments.map (fun p =>
      if p.2.required then "<" ++ p.1 ++ ">" else "[" ++ p.1 ++ "]")) ++
    "` - " ++ func.description

/-- `help_system._build_general_help_text`: header, the (supposedly
deduplicated) sorted command list, and the fixed trailing guidance. -/
def build_general_help_text (reg : Registry) : String :=
  let unique_commands := unique_commands_of reg
  let sorted_commands := sortByKey unique_commands
  let help_lines :=
    ["*Available Commands:*"] ++
      sorted_commands.map (fun p => general_usage_line p.1 p.2) ++
      ["",
       "For detailed help on any command, use: `help <command-name>` or `<command-name> --help`",
       "",
       "Example: `help openstack vm create` or `openstack vm create --help`"]
  String.intercalate "\n" help_lines

/-- `help_system.get_cached_general_help`, with the module-global
`_CACHED_HELP_TEXT` made explicit: returns the rendered text and the
new cache state.  The only transition out of the empty cache is the
first build; no code path ever clears the cache. -/
def get_cached_general_help (reg : Registry) (cache : Option String) :
    String × Option String :=
  match cache with
  | some t => (t, some t)
  | none =>
    let t := build_general_help_text reg
    (t, some t)

/-! ## Help-flag detection and target stripping -/

/-- The suffixes matched by the second alternative of the source regex
`^help\b\s.+|.*\S.*\s(-\x7b0,2\x7dh(elp)?)$`: zero to two dashes then
`h` or `help`, at the end of the line. -/
def HELP_FLAG_SUFFIXES : List String :=
  ["h", "help", "-h", "-help", "--h", "--help"]

/-- First regex alternative: the line starts with `help`, a whitespace
character, and at least one further (non-newline) character. -/
def check_help_flag_alt1 : List Char → Bool
  | 'h' :: 'e' :: 'l' :: 'p' :: w :: c :: _ => w.isWhitespace && c != '\n'
  | _ => false

/-- Second regex alternative: the line ends in one of the help-flag
suffixes, the character before the suffix is whitespace, and the part
before that whitespace consists of non-newline characters at least one
of which is non-whitespace. -/
def check_help_flag_alt2 (cs : List Char) : Bool :=
  HELP_FLAG_SUFFIXES.any (fun suf =>
    let sl := suf.data
    let k := cs.length - sl.length
    decide (sl.length + 1 ≤ cs.length) && cs.drop k == sl &&
      (match (cs.take k).reverse with
       | w :: preRev =>
         w.isWhitespace && preRev.all (fun c => c != '\n') &&
           preRev.any (fun c => !c.isWhitespace)
       | [] => false))

/-- `help_system.check_help_flag`: true when the command line matches
the help-request regex. -/
def check_help_flag (command_line : String) : Bool :=
  check_help_flag_alt1 command_line.data || check_help_flag_alt2 command_line.data

/-- `help_system.remove_help_from_command`: when the line is non-empty
and carries a help flag, delete every occurrence of the substrings
`"help "`, `" help"` and `" h"` (in that order); otherwise return the
line unchanged. -/
def remove_help_from_command (command_name : String) : String :=
  if command_name != "" && check_help_flag command_name then
    pyReplace (pyReplace (pyReplace command_name "help " "") " help" "") " h" ""
  else command_name

/-! ## The help command handler -/

/-- The observable response of `handle_help_command` (each constructor
records what the single `say(...)` call on that path reports). -/
inductive HelpAction where
  | specific : String → String → HelpAction
  | suggest : String → List String → HelpAction
  | notFound : String → HelpAction
  | general : String → HelpAction
deriving DecidableEq

/-- `help_system.handle_help_command`, with the module cache explicit.
A truthy target is first stripped of help tokens; a registry hit shows
detailed help; a miss computes suggestions as every registry key whose
lower-cased text contains the lower-cased target, reporting the first 5
when any exist; no target shows the cached general help. -/
def handle_help_command (reg : Registry) (cache : Option String)
    (command_name : Option String) : HelpAction × Option String :=
  match command_name with
  | some cn =>
    if cn != "" then
      let cn := remove_help_from_command cn
      match dictGet? reg cn with
      | some _ => (HelpAction.specific cn (format_command_help reg cn true), cache)
      | none =>
        let available_commands := reg.map (fun p => p.1)
        let suggestions :=
          available_commands.filter (fun cmd => pyInStr (pyToLower cn) (pyToLower cmd))
        if suggestions.length > 0 then
          (HelpAction.suggest cn (suggestions.take 5), cache)
        else
          (HelpAction.notFound cn, cache)
    else
      let r := get_cached_general_help reg cache
      (HelpAction.general r.1, r.2)
  | none =>
    let r := get_cached_general_help reg cache
    (HelpAction.general r.1, r.2)

/-! ## The Slack dispatcher (`slack_main.mention_handler`) -/

/-- The keys of the hard-coded `commands` table in `mention_handler`. -/
def SLACK_COMMAND_KEYS : List String :=
  ["help", "create-openstack-vm", "list-openstack-vms", "hello",
   "create-aws-vm", "aws-modify-vm", "list-aws-vms", "list-team-links"]

/-- The dispatcher's observable outcome: either the chosen command key
(with the effective command line passed to parameter extraction), or
the generic could-not-understand fallback message. -/
inductive DispatchResult where
  | dispatched : String → String → DispatchResult
  | fallback : DispatchResult
deriving DecidableEq

/-- Tokenisation in `mention_handler`: strip the text, split on single
spaces, and drop the tokens that are empty after stripping. -/
def tokenize_command_line (text : String) : List String :=
  (pySplitOnSpace (pyStrip text)).filter (fun x => pyStrip x != "")

/-- The command-selection core of `mention_handler`.  When the first
token starts with `<@` and another token follows, the mention token is
dropped and the command key is the lower-cased second token; otherwise
the command key is the first token, unchanged.  The key is then looked
up in the hard-coded table; a `KeyError` falls through to the generic
fallback. -/
def dispatch_tokens : List String → DispatchResult
  | [] => DispatchResult.fallback
  | [first] =>
    if SLACK_COMMAND_KEYS.contains first then
      DispatchResult.dispatched first (String.intercalate " " [first])
    else DispatchResult.fallback
  | first :: second :: rest =>
    if pyTake first 2 == "<@" then
      let cmd := pyToLower second
      let command_line := String.intercalate " " (second :: rest)
      if SLACK_COMMAND_KEYS.contains cmd then
        DispatchResult.dispatched cmd command_line
      else DispatchResult.fallback
    else
      let cmd := first
      let command_line := String.intercalate " " (first :: second :: rest)
      if SLACK_COMMAND_KEYS.contains cmd then
        DispatchResult.dispatched cmd command_line
      else DispatchResult.fallback

/-- `slack_main.mention_handler`, restricted to command resolution (the
per-command handler bodies and parameter extraction are external
collaborators). -/
def mention_handler (text : String) : DispatchResult :=
  dispatch_tokens (tokenize_command_line text)

/-! ## Concrete fixtures

A registry with the bot's commands (used as a concrete test fixture),
and a command whose `choices` producer raises.
-/

/-- Registry holding the bot's seven registered commands. -/
def demo_reg : Registry :=
  command_meta "list-team-links" "List team links" [] [] [] 17 (
  command_meta "list-aws-vms" "List AWS VMs" [] [] [] 16 (
  command_meta "aws-modify-vm" "Modify an AWS VM" [] [] [] 15 (
  command_meta "create-aws-vm" "Create an AWS VM" [] [] [] 14 (
  command_meta "hello" "Greet the bot" [] [] [] 13 (
  command_meta "list-openstack-vms" "List OpenStack VMs" [] [] [] 12 (
  command_meta "create-openstack-vm" "Create an OpenStack VM" [] [] [] 11 []))))))

/-- Registry with a single command registered under one alias as well. -/
def aliased_reg : Registry :=
  command_meta "list-aws-vms" "List AWS VMs" [] [] ["aws-vms"] 0 []

/-- A required argument whose `choices` producer raises on invocation. -/
def failing_env_arg : ArgInfo :=
  ⟨true, some "Target environment", some (DynVal.producer (fun _ => Except.error "boom")), none⟩

/-- An optional argument with two static choices. -/
def region_arg : ArgInfo :=
  ⟨false, some "Target region",
   some (DynVal.static (PyVal.list ["us-east-1", "eu-west-1"])), none⟩

/-- Registry with a two-argument command whose first argument has a
raising `choices` producer. -/
def deploy_reg : Registry :=
  command_meta "deploy" "Deploy the app" [("env", failing_env_arg), ("region", region_arg)]
    ["deploy --env=prod"] [] 1 []

/-! ## Registry lemmas -/

/-- Looking up the key just assigned returns the assigned value. -/
theorem dictGet_dictSet_self {α : Type} (d : List (String × α)) (k : String) (v : α) :
    dictGet? (dictSet d k v) k = some v := by
  induction d with
  | nil => simp [dictSet, dictGet?]
  | cons p rest ih =>
    by_cases h : p.1 = k
    · simp [dictSet, dictGet?, h]
    · simp [dictSet, dictGet?, h, ih]

/-- Assigning one key leaves lookups of other keys unchanged. -/
theorem dictGet_dictSet_ne {α : Type} (d : List (String × α)) (k k' : String) (v : α)
    (h : k' ≠ k) : dictGet? (dictSet d k v) k' = dictGet? d k' := by
  induction d with
  | nil => simp [dictSet, dictGet?, Ne.symm h]
  | cons p rest ih =>
    by_cases hp : p.1 = k
    · simp [dictSet, dictGet?, hp, Ne.symm h]
    · by_cases hpk : p.1 = k'
      · simp [dictSet, dictGet?, hp, hpk, h]
      · simp [dictSet, dictGet?, hp, hpk, ih]

/-- After folding the same value over a list of alias keys, every key
that either already mapped to the value or occurs among the aliases
maps to the value. -/
theorem dictGet_foldl_dictSet {α : Type} (as : List String) (d : List (String × α))
    (v : α) (k : String) (h : dictGet? d k = some v ∨ k ∈ as) :
    dictGet? (as.foldl (fun r a => dictSet r a v) d) k = some v := by
  induction as generalizing d with
  | nil =>
    rcases h with h | h
    · simpa using h
    · simp at h
  | cons a rest ih =>
    simp only [List.foldl_cons]
    apply ih
    rcases h with h | h
    · by_cases hak : k = a
      · subst hak; exact Or.inl (dictGet_dictSet_self d k v)
      · exact Or.inl (by rw [dictGet_dictSet_ne d a k v hak]; exact h)
    · rcases List.mem_cons.mp h with h | h
      · subst h; exact Or.inl (dictGet_dictSet_self d k v)
      · exact Or.inr h

/-- Folding assignments over alias keys not containing `k` leaves the
lookup of `k` unchanged. -/
theorem dictGet_foldl_dictSet_not_mem {α : Type} (as : List String)
    (d : List (String × α)) (v : α) (k : String) (h : k ∉ as) :
    dictGet? (as.foldl (fun r a => dictSet r a v) d) k = dictGet? d k := by
  induction as generalizing d with
  | nil => simp
  | cons a rest ih =>
    simp only [List.foldl_cons]
    rw [ih (dictSet d a v) (fun hm => h (List.mem_cons_of_mem a hm)),
      dictGet_dictSet_ne d a k v (fun he => h (he ▸ List.mem_cons_self a rest))]

/-! ## Claim C5 — the Dynamic Value Resolver -/

/-- C5: `get_dynamic_value` invokes a callable input and returns its
result; if the invocation raises, the fixed sentinel string
`"<error getting value>"` is returned instead of the exception
propagating; a non-callable input is returned unchanged. -/
theorem get_dynamic_value_spec :
    (∀ (f : Unit → Except String PyVal) (v : PyVal),
        f () = Except.ok v → get_dynamic_value (DynVal.producer f) = v)
    ∧ (∀ (f : Unit → Except String PyVal) (e : String),
        f () = Except.error e →
          get_dynamic_value (DynVal.producer f) = PyVal.str "<error getting value>")
    ∧ (∀ v : PyVal, get_dynamic_value (DynVal.static v) = v) := by
  refine ⟨fun f v h => ?_, fun f e h => ?_, fun v => rfl⟩ <;>
    simp [get_dynamic_value, h]

/-- C5 witness: the three branches of `get_dynamic_value_spec` at
concrete inputs — a succeeding producer, a raising producer and a
static value. -/
theorem get_dynamic_value_spec_witness :
    get_dynamic_value (DynVal.producer (fun _ => Except.ok (PyVal.str "ok"))) = PyVal.str "ok"
    ∧ get_dynamic_value (DynVal.producer (fun _ => Except.error "boom"))
        = PyVal.str "<error getting value>"
    ∧ get_dynamic_value (DynVal.static (PyVal.str "v")) = PyVal.str "v" :=
  ⟨get_dynamic_value_spec.1 _ _ rfl, get_dynamic_value_spec.2.1 _ _ rfl,
   get_dynamic_value_spec.2.2 _⟩

/-! ## Claim C4 — the general help cache -/

/-- C4: every call to `get_cached_general_help` after the first returns
the string produced by the first call, even against an arbitrarily
changed registry (in particular one with new commands registered), and
leaves the cache state untouched; the model has no operation that
clears the cache. -/
theorem general_help_cache_immutable (reg reg2 : Registry) :
    (get_cached_general_help reg2 (get_cached_general_help reg none).2).1
      = (get_cached_general_help reg none).1
    ∧ (get_cached_general_help reg2 (get_cached_general_help reg none).2).2
      = (get_cached_general_help reg none).2 :=
  ⟨rfl, rfl⟩

/-! ## Claim C6 — truncation of resolved choices -/

/-- C6: in detailed help, an argument whose resolved choices list has
more than 10 entries renders exactly the first 10 followed by the
truncation marker `, ...`; a list of exactly 10 entries renders all 10
with no marker. -/
theorem choices_truncation_rule (arg_info : ArgInfo) (dv : DynVal) (cs : List String)
    (hch : arg_info.choices = some dv)
    (hres : get_dynamic_value dv = PyVal.list cs) :
    (cs.length > 10 →
        options_part arg_info =
          " (Options: " ++ String.intercalate ", " (cs.take 10) ++ ", ...)")
    ∧ (cs.length = 10 →
        options_part arg_info =
          " (Options: " ++ String.intercalate ", " cs ++ ")") := by
  constructor
  · intro hlen
    have hne : cs ≠ [] := by intro hnil; subst hnil; simp at hlen
    simp [options_part, hch, hres, hne, hlen]
  · intro hlen
    have hne : cs ≠ [] := by intro hnil; subst hnil; simp at hlen
    have hnot : ¬ cs.length > 10 := by omega
    simp [options_part, hch, hres, hne, hnot]

/-- C6 witness: a 12-element choices list renders its first 10 entries
plus the marker; a 10-element list renders all entries, no marker. -/
theorem choices_truncation_rule_witness :
    options_part ⟨false, none, some (DynVal.static (PyVal.list
        ["c01","c02","c03","c04","c05","c06","c07","c08","c09","c10","c11","c12"])), none⟩
      = " (Options: c01, c02, c03, c04, c05, c06, c07, c08, c09, c10, ...)"
    ∧ options_part ⟨false, none, some (DynVal.static (PyVal.list
        ["c01","c02","c03","c04","c05","c06","c07","c08","c09","c10"])), none⟩
      = " (Options: c01, c02, c03, c04, c05, c06, c07, c08, c09, c10)" := by
  constructor
  · exact ((choices_truncation_rule
      ⟨false, none, some (DynVal.static (PyVal.list
        ["c01","c02","c03","c04","c05","c06","c07","c08","c09","c10","c11","c12"])), none⟩
      (DynVal.static (PyVal.list
        ["c01","c02","c03","c04","c05","c06","c07","c08","c09","c10","c11","c12"]))
      ["c01","c02","c03","c04","c05","c06","c07","c08","c09","c10","c11","c12"]
      rfl rfl).1 (by decide)).trans (by decide)
  · exact ((choices_truncation_rule
      ⟨false, none, some (DynVal.static (PyVal.list
        ["c01","c02","c03","c04","c05","c06","c07","c08","c09","c10"])), none⟩
      (DynVal.static (PyVal.list
        ["c01","c02","c03","c04","c05","c06","c07","c08","c09","c10"]))
      ["c01","c02","c03","c04","c05","c06","c07","c08","c09","c10"]
      rfl rfl).2 (by decide)).trans (by decide)

/-! ## Claim C7 — alias registration and lookup -/

/-- C7 counterexample: a command declared through the decorator with the
canonical name `"help"` and one alias is reachable under the alias but
its canonical-name lookup fails, so not all N+1 keys resolve. -/
theorem help_named_command_canonical_lookup_fails :
    dictGet? (command_meta "help" "Show help" [] [] ["assist"] 2 []) "assist"
      = some (mk_command_func "Show help" [] [] ["assist"] 2)
    ∧ dictGet? (command_meta "help" "Show help" [] [] ["assist"] 2 []) "help"
      = none :=
  ⟨rfl, rfl⟩

/-- C7 (amended): for every command registered via the decorator whose
canonical name is not `"help"`, lookup succeeds for the canonical name
and for each alias, and every such key resolves to the identical
function/metadata object; for the manual `register_command` path this
holds for any name, `"help"` included. -/
theorem registration_alias_lookup (name description : String)
    (arguments : List (String × ArgInfo)) (examples aliases : List String)
    (fid : Nat) (reg : Registry) (md : MetaDict) (fid2 : Nat) (reg2 : Registry)
    (hname : name ≠ "help") :
    (dictGet? (command_meta name description arguments examples aliases fid reg) name
        = some (mk_command_func description arguments examples aliases fid)
      ∧ ∀ a ∈ aliases,
          dictGet? (command_meta name description arguments examples aliases fid reg) a
            = some (mk_command_func description arguments examples aliases fid))
    ∧ (dictGet? (register_command name fid2 md reg2) name
        = some (handler_with_meta fid2 md)
      ∧ ∀ a ∈ md.aliases.getD [],
          dictGet? (register_command name fid2 md reg2) a
            = some (handler_with_meta fid2 md)) := by
  have hbne : (name != "help") = true := by simp [hname]
  refine ⟨⟨?_, fun a ha => ?_⟩, ⟨?_, fun a ha => ?_⟩⟩
  · simp only [command_meta, hbne, if_true]
    exact dictGet_foldl_dictSet aliases _ _ name (Or.inl (dictGet_dictSet_self reg name _))
  · simp only [command_meta, hbne, if_true]
    exact dictGet_foldl_dictSet aliases _ _ a (Or.inr ha)
  · simp only [register_command]
    exact dictGet_foldl_dictSet _ _ _ name (Or.inl (dictGet_dictSet_self reg2 name _))
  · simp only [register_command]
    exact dictGet_foldl_dictSet _ _ _ a (Or.inr ha)

/-- C7 witness: a decorator-registered command with one alias is found
under both keys with the identical metadata, and a manually registered
command is found under its name and alias. -/
theorem registration_alias_lookup_witness :
    dictGet? (command_meta "list-aws-vms" "List AWS VMs" [] [] ["aws-vms"] 0 []) "list-aws-vms"
      = some (mk_command_func "List AWS VMs" [] [] ["aws-vms"] 0)
    ∧ dictGet? (command_meta "list-aws-vms" "List AWS VMs" [] [] ["aws-vms"] 0 []) "aws-vms"
      = some (mk_command_func "List AWS VMs" [] [] ["aws-vms"] 0)
    ∧ dictGet? (register_command "hello" 9 ⟨some "Greet", some [], some [], some ["hi"]⟩ []) "hi"
      = some (handler_with_meta 9 ⟨some "Greet", some [], some [], some ["hi"]⟩) := by
  have h := registration_alias_lookup "list-aws-vms" "List AWS VMs" [] [] ["aws-vms"] 0 []
    ⟨some "Greet", some [], some [], some ["hi"]⟩ 9 [] (by decide)
  have h2 := registration_alias_lookup "hello" "ignored" [] [] [] 9 []
    ⟨some "Greet", some [], some [], some ["hi"]⟩ 9 [] (by decide)
  exact ⟨h.1.1, h.1.2 "aws-vms" (by decide), h2.2.2 "hi" (by decide)⟩

/-! ## Claim C8 — the `"help"` canonical key -/

/-- C8 counterexample: the manual registration path inserts a handler
under the key `"help"` unconditionally, so the registry can contain a
user-registered handler under `"help"`. -/
theorem manual_register_inserts_help_key :
    dictGet? (register_command "help" 4 ⟨some "Custom help", some [], some [], some []⟩ []) "help"
      = some (handler_with_meta 4 ⟨some "Custom help", some [], some [], some []⟩) :=
  rfl

/-- C8 (amended): only the decorator path refuses the canonical
`"help"` key — a decorator-declared command named `"help"` leaves the
`"help"` binding of the registry unchanged as long as `"help"` is not
among its aliases — while `register_command` inserts under `"help"`
unconditionally. -/
theorem decorator_skips_help_key (description : String)
    (arguments : List (String × ArgInfo)) (examples aliases : List String)
    (fid : Nat) (reg : Registry) (hal : "help" ∉ aliases) :
    dictGet? (command_meta "help" description arguments examples aliases fid reg) "help"
      = dictGet? reg "help"
    ∧ ∀ (md : MetaDict) (fid2 : Nat) (reg2 : Registry),
        dictGet? (register_command "help" fid2 md reg2) "help"
          = some (handler_with_meta fid2 md) := by
  constructor
  · simp only [command_meta, bne_self_eq_false, if_neg, ite_false]
    exact dictGet_foldl_dictSet_not_mem aliases reg _ "help" hal
  · intro md fid2 reg2
    simp only [register_command]
    exact dictGet_foldl_dictSet _ _ _ "help" (Or.inl (dictGet_dictSet_self reg2 "help" _))

/-- C8 witness: a decorator-declared command named `"help"` with an
alias does not create a `"help"` key in an empty registry, while the
manual path does. -/
theorem decorator_skips_help_key_witness :
    dictGet? (command_meta "help" "Show help" [] [] ["assist2"] 5 []) "help" = none
    ∧ dictGet? (register_command "help" 6 ⟨none, none, none, none⟩ []) "help"
      = some (handler_with_meta 6 ⟨none, none, none, none⟩) := by
  have h := decorator_skips_help_key "Show help" [] [] ["assist2"] 5 [] (by decide)
  exact ⟨h.1, h.2 ⟨none, none, none, none⟩ 6 []⟩

/-! ## Claim C1 — deduplication in the general help list -/

/-- The `unique_commands` fold only appends when the keys it still has
to process are distinct from each other and from the accumulator's. -/
theorem unique_commands_fold_appends (reg : Registry) :
    ∀ acc : Registry,
      (∀ p ∈ reg, ∀ q ∈ acc, q.1 ≠ p.1) →
      (reg.map Prod.fst).Nodup →
      reg.foldl (fun acc p => if acc.any (fun q => q.1 == p.1) then acc else acc ++ [p]) acc
        = acc ++ reg := by
  induction reg with
  | nil => intro acc _ _; simp
  | cons p rest ih =>
    intro acc hdisj hnd
    rw [List.map_cons, List.nodup_cons] at hnd
    simp only [List.foldl_cons]
    have hany : (acc.any (fun q => q.1 == p.1)) = false := by
      rw [List.any_eq_false]
      intro q hq
      simpa using hdisj p (List.mem_cons_self p rest) q hq
    rw [hany]
    simp only [Bool.false_eq_true, if_false]
    rw [ih (acc ++ [p]) ?_ hnd.2]
    · simp
    · intro r hr q hq
      rcases List.mem_append.mp hq with hq | hq
      · exact hdisj r (List.mem_cons_of_mem p hr) q hq
      · have hqp : q = p := by simpa using hq
        subst hqp
        intro he
        exact hnd.1 (he ▸ List.mem_map_of_mem Prod.fst hr)

/-- C1: refuted — the dedup loop of `_build_general_help_text` compares
registry keys (which are unique), not metadata identity, so
`unique_commands` is the identity on every registry with distinct keys;
in particular a command registered with one alias is rendered once per
dispatch key (twice) in the general help built by the first
`get_cached_general_help` call, the code's "excluding aliases" comment
notwithstanding.  The rendered list is sorted by dispatch key. -/
theorem help_list_duplicates_aliased_command (reg : Registry)
    (h : (reg.map Prod.fst).Nodup) :
    unique_commands_of reg = reg
    ∧ (get_cached_general_help aliased_reg none).1
      = "*Available Commands:*\n`aws-vms` - List AWS VMs\n`list-aws-vms` - List AWS VMs\n\nFor detailed help on any command, use: `help <command-name>` or `<command-name> --help`\n\nExample: `help openstack vm create` or `openstack vm create --help`" := by
  constructor
  · have := unique_commands_fold_appends reg []
      (by intro p hp q hq; simp at hq) h
    simpa [unique_commands_of] using this
  · rfl

/-- C1 witness: the fixture registry (one command, one alias) has
distinct keys, and the first general-help build lists its single
command twice. -/
theorem help_list_duplicates_aliased_command_witness :
    unique_commands_of aliased_reg = aliased_reg
    ∧ (get_cached_general_help aliased_reg none).1
      = "*Available Commands:*\n`aws-vms` - List AWS VMs\n`list-aws-vms` - List AWS VMs\n\nFor detailed help on any command, use: `help <command-name>` or `<command-name> --help`\n\nExample: `help openstack vm create` or `openstack vm create --help`" :=
  help_list_duplicates_aliased_command aliased_reg (by decide)

/-! ## Claim C2 — raising choices producer in detailed help -/

/-- C2 counterexample: for the command whose `env` argument has a
raising choices producer, the rendered detailed help does NOT contain
the sentinel `"<error getting value>"` anywhere (while the command's
description and the failing argument's description do render). -/
theorem detailed_help_sentinel_not_rendered :
    pyInStr "<error getting value>" (format_command_help deploy_reg "deploy" true) = false
    ∧ pyInStr "Target environment" (format_command_help deploy_reg "deploy" true) = true
    ∧ pyInStr "Deploy the app" (format_command_help deploy_reg "deploy" true) = true :=
  ⟨by decide, by decide, by decide⟩

set_option maxRecDepth 8192 in
/-- C2 (amended): a raising choices producer degrades to nothing — the
resolver's sentinel string fails the list-type guard, so the failing
argument's options field is omitted entirely (not rendered as the
sentinel) while the argument's name, required marker and description,
and every other argument, render normally and the render does not
abort. -/
theorem failing_choices_field_omitted (arg_name : String) (req : Bool)
    (descr : Option String) (dflt : Option DynVal)
    (f : Unit → Except String PyVal) (e : String) (hf : f () = Except.error e) :
    options_part ⟨req, descr, some (DynVal.producer f), dflt⟩ = ""
    ∧ render_arg_line arg_name ⟨req, descr, some (DynVal.producer f), dflt⟩
      = arg_line_prefix arg_name ⟨req, descr, some (DynVal.producer f), dflt⟩
        ++ default_part ⟨req, descr, some (DynVal.producer f), dflt⟩
    ∧ format_command_help deploy_reg "deploy" true
      = "*deploy*\n_Deploy the app_\n\n*Usage:* `deploy --env=<env> [--region=<region>]`\n\n*Arguments:*\n  `--env` *(required)* - Target environment\n  `--region` - Target region (Options: us-east-1, eu-west-1)\n\n*Examples:*\n  `deploy --env=prod`" := by
  have hop : options_part ⟨req, descr, some (DynVal.producer f), dflt⟩ = "" := by
    simp [options_part, get_dynamic_value, hf]
  refine ⟨hop, ?_, by decide⟩
  simp [render_arg_line, hop]

/-- C2 witness: the degradation facts at the fixture's raising
argument. -/
theorem failing_choices_field_omitted_witness :
    options_part failing_env_arg = ""
    ∧ render_arg_line "env" failing_env_arg
      = arg_line_prefix "env" failing_env_arg ++ default_part failing_env_arg := by
  have h := failing_choices_field_omitted "env" true (some "Target environment") none
    (fun _ => Except.error "boom") "boom" rfl
  exact ⟨h.1, h.2.1⟩

/-! ## Claim C3 — suggestions on a miss -/

/-- C3 counterexample: dispatching the typo `"list-asw-vms"` yields the
dispatcher's generic fallback (the dispatcher computes no suggestions
at all), and even the help path produces no suggestion — in particular
none containing `"list-aws-vms"` — because the typo is not a substring
of any registry key. -/
theorem typo_yields_no_suggestions :
    mention_handler "list-asw-vms" = DispatchResult.fallback
    ∧ (handle_help_command demo_reg none (some "list-asw-vms")).1
      = HelpAction.notFound "list-asw-vms"
    ∧ (demo_reg.map (fun p => p.1)).filter
        (fun cmd => pyInStr (pyToLower "list-asw-vms") (pyToLower cmd)) = [] :=
  ⟨by decide, by decide, by decide⟩

/-- C3 (amended): substring suggestions exist only on the help path:
for a non-empty help target that misses the registry after help-token
stripping, the handler reports either the not-found message or at most
5 suggestions, each a registry key containing the stripped target as a
case-insensitive substring; when no key matches it always reports
not-found.  The general dispatcher answers a miss only with the generic
fallback, as the concrete typo shows. -/
theorem unknown_help_target_suggestions (reg : Registry) (cn : String)
    (hcn : cn ≠ "")
    (hmiss : dictGet? reg (remove_help_from_command cn) = none) :
    ((handle_help_command reg none (some cn)).1
        = HelpAction.notFound (remove_help_from_command cn)
      ∨ ∃ sugg, (handle_help_command reg none (some cn)).1
            = HelpAction.suggest (remove_help_from_command cn) sugg
          ∧ sugg.length ≤ 5
          ∧ ∀ k ∈ sugg, k ∈ reg.map (fun p => p.1)
              ∧ pyInStr (pyToLower (remove_help_from_command cn)) (pyToLower k) = true)
    ∧ ((∀ k ∈ reg.map (fun p => p.1),
          pyInStr (pyToLower (remove_help_from_command cn)) (pyToLower k) = false) →
        (handle_help_command reg none (some cn)).1
          = HelpAction.notFound (remove_help_from_command cn))
    ∧ mention_handler "list-asw-vms" = DispatchResult.fallback := by
  have hbne : (cn != "") = true := by simpa using hcn
  refine ⟨?_, ?_, by decide⟩
  · by_cases hlen : ((reg.map (fun p => p.1)).filter
        (fun cmd => pyInStr (pyToLower (remove_help_from_command cn)) (pyToLower cmd))).length > 0
    · right
      refine ⟨((reg.map (fun p => p.1)).filter
          (fun cmd => pyInStr (pyToLower (remove_help_from_command cn)) (pyToLower cmd))).take 5,
        ?_, List.length_take_le 5 _, fun k hk => ?_⟩
      · simp only [handle_help_command, hbne, if_true, hmiss]
        rw [if_pos hlen]
      · have hk2 := List.mem_of_mem_take hk
        exact ⟨(List.mem_filter.mp hk2).1, (List.mem_filter.mp hk2).2⟩
    · left
      simp only [handle_help_command, hbne, if_true, hmiss]
      rw [if_neg hlen]
  · intro hall
    have hnil : (reg.map (fun p => p.1)).filter
        (fun cmd => pyInStr (pyToLower (remove_help_from_command cn)) (pyToLower cmd)) = [] := by
      rw [List.filter_eq_nil_iff]
      intro k hk
      simp [hall k hk]
    simp only [handle_help_command, hbne, if_true, hmiss, hnil]
    simp

/-- C3 witness: with the bot's registry and the typo target, the help
handler reports the plain not-found message (no suggestions). -/
theorem unknown_help_target_suggestions_witness :
    (handle_help_command demo_reg none (some "list-asw-vms")).1
      = HelpAction.notFound "list-asw-vms" := by
  have h := unknown_help_target_suggestions demo_reg "list-asw-vms" (by decide) rfl
  exact h.2.1 (by decide)

/-! ## Claim C9 — stripping help tokens from a help target -/

/-- C9: the failing inputs — `check_help_flag` recognizes
`"create-aws-vm --help"` and `"create-aws-vm -h"` as help requests, yet
`remove_help_from_command` returns both unchanged (only the bare
trailing `help` form is stripped), so the registry lookup runs on the
unstripped text and reports not-found instead of showing help for
`create-aws-vm`. -/
theorem help_flag_not_stripped :
    check_help_flag "create-aws-vm --help" = true
    ∧ remove_help_from_command "create-aws-vm --help" = "create-aws-vm --help"
    ∧ check_help_flag "create-aws-vm -h" = true
    ∧ remove_help_from_command "create-aws-vm -h" = "create-aws-vm -h"
    ∧ remove_help_from_command "create-aws-vm help" = "create-aws-vm"
    ∧ (handle_help_command demo_reg none (some "create-aws-vm --help")).1
      = HelpAction.notFound "create-aws-vm --help" :=
  ⟨by decide, by decide, by decide, by decide, by decide, by decide⟩

/-! ## Claim C10 — case handling in the dispatcher -/

/-- C10: the dispatcher lower-cases the command key only on the
mention-stripping branch (first token starting with `<@` and another
token following); a bare command is compared case-sensitively against
the command table, so the same mixed-case text dispatches when
mention-prefixed yet falls through to the generic fallback when
bare. -/
theorem bare_command_case_sensitive (mention tok : String) (rest : List String)
    (hm : pyTake mention 2 = "<@") :
    (dispatch_tokens (mention :: tok :: rest)
      = (if SLACK_COMMAND_KEYS.contains (pyToLower tok) then
           DispatchResult.dispatched (pyToLower tok) (String.intercalate " " (tok :: rest))
         else DispatchResult.fallback))
    ∧ (dispatch_tokens [tok]
      = (if SLACK_COMMAND_KEYS.contains tok then
           DispatchResult.dispatched tok (String.intercalate " " [tok])
         else DispatchResult.fallback))
    ∧ mention_handler "<@U123> HELLO" = DispatchResult.dispatched "hello" "HELLO"
    ∧ mention_handler "HELLO" = DispatchResult.fallback := by
  refine ⟨?_, rfl, by decide, by decide⟩
  simp [dispatch_tokens, hm]

/-- C10 witness: the asymmetry at the concrete text `HELLO`. -/
theorem bare_command_case_sensitive_witness :
    mention_handler "<@U123> HELLO" = DispatchResult.dispatched "hello" "HELLO"
    ∧ mention_handler "HELLO" = DispatchResult.fallback := by
  have h := bare_command_case_sensitive "<@U123>" "HELLO" [] (by decide)
  exact ⟨h.2.2.1, h.2.2.2⟩

end OcpBot
